import Mathlib

/-!
Verification development for the bike-share-voronoi repository.

The repository ships two variants of the same application:
`src/main.ts` (which implements the polygon wrappers `closePolygons`,
`removeIntersection`, `polygonIntersection` inline, delegating the Boolean
kernels to the external turf library) and a second variant (`part_000`)
whose geometric primitives live in a `geometry.ts` module that is not part
of the sources (only its call sites are).

Modelling decisions, uniform throughout this file:
- Coordinates are exact rationals, represented by the fraction type `Q`
  (an integer numerator and a positive integer denominator, never
  normalized, so that every operation is kernel-computable).  `Q.toRat`
  interprets a fraction in `ℚ`, and the bridging lemmas below show the
  computable comparisons agree with the rational order.  The engine is
  agnostic to lat/lng vs planar axes; floating-point rounding is out of
  scope.
- A JavaScript point is an array object; `closePolygons` compares the
  first and last entry of a ring with `!==`, i.e. by object identity, not
  by value.  Each `Point` therefore carries a `pid` field modelling the
  object identity of the underlying array: two occurrences with the same
  `pid` denote the same JavaScript object.  `polygon.push(polygon[0])`
  pushes the same object, hence a point with the same `pid`.
- In-place mutation of the operand arrays (closing, winding reversal) is
  modelled by state passing: the wrapper results carry the final contents
  of both operand arrays next to the returned value.
- The external Boolean kernels (`turf.intersect`, `turf.difference`) and
  the missing `geometry.ts` kernels (`gutils.polygonIntersection`,
  `gutils.polygonMinus`, `gutils.voronoi`) are uninterpreted function
  parameters returning `Option Polygon`: `none` models a null/undefined
  return, `some r` models a returned ring `r`.  The documented input
  validation of the `turf.polygon` constructor is part of the model: a
  linear ring needs at least 4 positions, so an operand with exactly 3
  entries after closing (it passed the `< 3` guard) makes
  `createTurfPolygons` throw before any winding normalization.  (The
  companion first-equals-last validation always passes here, because
  `closePolygons` guarantees equal first and last coordinates.)
- JavaScript truthiness matters at the call sites: `undefined`/`null` are
  falsy, but an empty array `[]` is truthy.  The embeddings keep that
  distinction (`none` vs `some []`).
-/

namespace BikeVoronoi

/-- An exact, unnormalized fraction: numerator `n`, denominator `d`.
All constructions in this file keep `0 < d`. -/
structure Q where
  n : Int
  d : Int
deriving DecidableEq, Repr

instance (k : Nat) : OfNat Q k := ⟨⟨(k : Int), 1⟩⟩

/-- The rational value of a fraction. -/
def Q.toRat (a : Q) : ℚ := (a.n : ℚ) / (a.d : ℚ)

/-- Fraction addition (cross multiplication, no normalization). -/
def Q.add (a b : Q) : Q := ⟨a.n * b.d + b.n * a.d, a.d * b.d⟩

/-- Fraction subtraction. -/
def Q.sub (a b : Q) : Q := ⟨a.n * b.d - b.n * a.d, a.d * b.d⟩

/-- Fraction multiplication. -/
def Q.mul (a b : Q) : Q := ⟨a.n * b.n, a.d * b.d⟩

/-- Fraction inverse, sign-normalized so a positive denominator stays
positive; the inverse of zero is the junk value zero. -/
def Q.inv (a : Q) : Q :=
  if a.n < 0 then ⟨-a.d, -a.n⟩ else if a.n = 0 then ⟨0, 1⟩ else ⟨a.d, a.n⟩

/-- Fraction division. -/
def Q.div (a b : Q) : Q := a.mul b.inv

/-- Absolute value. -/
def Q.abs (a : Q) : Q := ⟨(a.n.natAbs : Int), a.d⟩

/-- Computable strict order (correct whenever both denominators are
positive, see `Q.lt_iff_toRat`). -/
def Q.lt (a b : Q) : Bool := decide (a.n * b.d < b.n * a.d)

/-- Computable numeric equality — the semantics of JavaScript `==` on
numbers (correct whenever both denominators are positive, see
`Q.numEq_iff_toRat`). -/
def Q.numEq (a b : Q) : Bool := decide (a.n * b.d = b.n * a.d)

instance : Add Q := ⟨Q.add⟩
instance : Sub Q := ⟨Q.sub⟩
instance : Mul Q := ⟨Q.mul⟩
instance : Div Q := ⟨Q.div⟩

/-- A polygon vertex: `pid` models the identity of the underlying
JavaScript array object, `lat`/`lng` its two coordinates. -/
structure Point where
  pid : Nat
  lat : Q
  lng : Q
deriving DecidableEq, Repr

/-- A polygon is an ordered point sequence, possibly open, as in the source. -/
abbrev Polygon := List Point

/-- A station record of the `part_000` variant (`createStation`): name,
icon colour and the two coordinates. -/
structure Station where
  name : String
  icon : String
  lat : Q
  lng : Q
deriving DecidableEq, Repr

/-- Modelled from the spec: the fixed tolerance used by
`gutils.pointsEqual` in the missing `geometry.ts` ("a fixed small
constant on the order of 1e-9"). -/
def EPSILON : Q := ⟨1, 1000000000⟩

/-- Modelled from the spec: `pointsEqual(a, b, epsilon)` from the missing
`geometry.ts` — both coordinate deltas below epsilon. -/
def pointsEqual (a b : Q × Q) : Bool :=
  ((a.1 - b.1).abs.lt EPSILON) && ((a.2 - b.2).abs.lt EPSILON)

/-- The comparison used by the `dragend` handler of `src/main.ts`
(line 129): `(p.lat == dragStart.lat) && (p.lng == dragStart.lng)` —
exact numeric equality, no tolerance. -/
def mainDragMatch (p dragStart : Q × Q) : Bool :=
  (p.1.numEq dragStart.1) && (p.2.numEq dragStart.2)

/-- `closePolygons` body for one ring (src/main.ts lines 198-204): append
the first point to the end if `polygon[0] !== polygon[polygon.length-1]`,
i.e. if the first and last entries are not the same object (`pid`).
On `[]` the JS comparison is `undefined !== undefined`, which is false,
so the empty ring is left alone; a pushed closing point is the same
object as the first point, hence carries the same `pid`. -/
def closePolygon : Polygon → Polygon
  | [] => []
  | h :: t =>
    if h.pid = ((h :: t).getLastD h).pid then h :: t else (h :: t) ++ [h]

/-- `closePolygons(polygons)` closes each ring of the array in place. -/
def closePolygons (polygons : List Polygon) : List Polygon :=
  polygons.map closePolygon

/-- Signed shoelace sum over the remaining consecutive vertex pairs,
starting from vertex `prev`. -/
def shoelaceAux (prev : Point) : List Point → Q
  | [] => 0
  | b :: rest => (b.lat - prev.lat) * (b.lng + prev.lng) + shoelaceAux b rest

/-- Signed shoelace sum over consecutive vertex pairs, as computed by
`turf.booleanClockwise`: the sum of `(x2 - x1) * (y2 + y1)`. -/
def shoelace : List Point → Q
  | [] => 0
  | a :: rest => shoelaceAux a rest

/-- `turf.booleanClockwise(ring)`: the ring is clockwise when the
shoelace sum is positive. -/
def booleanClockwise (ring : List Point) : Bool :=
  Q.lt 0 (shoelace ring)

/-- Net effect on a ring of `createTurfPolygons` (src/main.ts lines
207-216): `turf.booleanClockwise(ring) || ring.reverse()` — the ring is
reversed in place when it is not clockwise. -/
def clockwiseRing (p : Polygon) : Polygon :=
  if booleanClockwise p then p else p.reverse

/-- Edges walked by the point-in-polygon test, continuing from `prev`. -/
def edgePairsAux (prev : Point) : List Point → List (Point × Point)
  | [] => []
  | b :: rest => (prev, b) :: edgePairsAux b rest

/-- Consecutive vertex pairs of a ring. -/
def edgePairs : List Point → List (Point × Point)
  | [] => []
  | a :: rest => edgePairsAux a rest

/-- Modelled from the spec: one edge step of the standard ray-casting
test used by `gutils.pointInPolygon` in the missing `geometry.ts`. -/
def rayCrosses (lat lng : Q) (a b : Point) : Bool :=
  (lng.lt a.lng != lng.lt b.lng)
    && lat.lt ((b.lat - a.lat) * (lng - a.lng) / (b.lng - a.lng) + a.lat)

/-- Modelled from the spec: `gutils.pointInPolygon` from the missing
`geometry.ts` — standard ray-casting / even-odd test. -/
def pointInPolygon (lat lng : Q) (poly : Polygon) : Bool :=
  (edgePairs poly).foldl
    (fun inside e => if rayCrosses lat lng e.1 e.2 then !inside else inside)
    false

/-- Result of `removeIntersection` (src/main.ts lines 219-230): the final
contents of both operand arrays (which the function mutates in place by
closing and winding reversal) and the returned value.  `Except.ok none`
models the bare `return;` (undefined); `Except.error ()` models a thrown
error — either the `turf.polygon` ring validation (an operand of exactly
3 entries after closing) or the TypeError when `.geometry` is read off a
null `turf.difference` result. -/
structure RIResult where
  p1 : Polygon
  p2 : Polygon
  ret : Except Unit (Option Polygon)

/-- `removeIntersection(polygon1, polygon2)` from src/main.ts: close both
operands in place, return undefined when either has fewer than 3 points
after closing; `createTurfPolygons` then throws if either closed operand
has exactly 3 entries (the documented `turf.polygon` validation: a
linear ring needs at least 4 positions — this happens before any
winding reversal); otherwise normalize both windings in place, call
`turf.intersect`; if it is null return `polygon1` (its mutated
contents), otherwise return the outer ring of
`turf.difference(polygon1, intersection)` — dereferencing `.geometry`
without a null check, which throws when the difference is empty.
`kInt` and `kDiff` are the uninterpreted turf kernels. -/
def removeIntersection (kInt kDiff : Polygon → Polygon → Option Polygon)
    (polygon1 polygon2 : Polygon) : RIResult :=
  if (closePolygon polygon1).length < 3 ∨ (closePolygon polygon2).length < 3 then
    ⟨closePolygon polygon1, closePolygon polygon2, Except.ok none⟩
  else if (closePolygon polygon1).length = 3 ∨ (closePolygon polygon2).length = 3 then
    ⟨closePolygon polygon1, closePolygon polygon2, Except.error ()⟩
  else
    match kInt (clockwiseRing (closePolygon polygon1))
        (clockwiseRing (closePolygon polygon2)) with
    | none =>
      ⟨clockwiseRing (closePolygon polygon1), clockwiseRing (closePolygon polygon2),
        Except.ok (some (clockwiseRing (closePolygon polygon1)))⟩
    | some inter =>
      match kDiff (clockwiseRing (closePolygon polygon1)) inter with
      | none =>
        ⟨clockwiseRing (closePolygon polygon1), clockwiseRing (closePolygon polygon2),
          Except.error ()⟩
      | some d =>
        ⟨clockwiseRing (closePolygon polygon1), clockwiseRing (closePolygon polygon2),
          Except.ok (some d)⟩

/-- Result of `polygonIntersection` (src/main.ts lines 233-244): final
operand contents plus the returned value (`Except.ok none` models the
bare `return;`, `Except.ok (some [])` the explicit empty array,
`Except.ok (some r)` a ring, and `Except.error ()` the `turf.polygon`
ring validation throw on an operand of exactly 3 entries after
closing). -/
structure PIResult where
  p1 : Polygon
  p2 : Polygon
  ret : Except Unit (Option Polygon)

/-- `polygonIntersection(polygon1, polygon2)` from src/main.ts: close
both operands in place, return undefined when either has fewer than 3
points after closing; `createTurfPolygons` then throws if either closed
operand has exactly 3 entries (the documented `turf.polygon`
validation, before any winding reversal); otherwise normalize both
windings in place and return the ring of `turf.intersect`, or `[]`
when it is null. -/
def polygonIntersection (kInt : Polygon → Polygon → Option Polygon)
    (polygon1 polygon2 : Polygon) : PIResult :=
  if (closePolygon polygon1).length < 3 ∨ (closePolygon polygon2).length < 3 then
    ⟨closePolygon polygon1, closePolygon polygon2, Except.ok none⟩
  else if (closePolygon polygon1).length = 3 ∨ (closePolygon polygon2).length = 3 then
    ⟨closePolygon polygon1, closePolygon polygon2, Except.error ()⟩
  else
    match kInt (clockwiseRing (closePolygon polygon1))
        (clockwiseRing (closePolygon polygon2)) with
    | none =>
      ⟨clockwiseRing (closePolygon polygon1), clockwiseRing (closePolygon polygon2),
        Except.ok (some [])⟩
    | some inter =>
      ⟨clockwiseRing (closePolygon polygon1), clockwiseRing (closePolygon polygon2),
        Except.ok (some inter)⟩

/-- First loop of `applyConstraints` (src/main.ts lines 180-183): clip
each cell against the outer constraint with `polygonIntersection`,
install the result when it is truthy (any array, including `[]`) and
keep the mutated cell contents when it is undefined; a thrown
validation error aborts the loop.  The outer polygon array is threaded
through because each call closes it in place. -/
def interFold (kInt : Polygon → Polygon → Option Polygon) :
    List Polygon → Polygon → Except Unit (List Polygon × Polygon)
  | [], outer => Except.ok ([], outer)
  | c :: cs, outer =>
    match (polygonIntersection kInt c outer).ret with
    | Except.error _ => Except.error ()
    | Except.ok none =>
      (interFold kInt cs (polygonIntersection kInt c outer).p2).map
        (fun rest => ((polygonIntersection kInt c outer).p1 :: rest.1, rest.2))
    | Except.ok (some p) =>
      (interFold kInt cs (polygonIntersection kInt c outer).p2).map
        (fun rest => (p :: rest.1, rest.2))

/-- Inner loop of the second stage of `applyConstraints` (src/main.ts
lines 186-191): subtract each inner obstacle from one cell with
`removeIntersection`, installing any truthy result and keeping the
cell's (mutated) contents on undefined; a thrown TypeError aborts.
The obstacle array contents are threaded (they are closed in place). -/
def minusFold (kInt kDiff : Polygon → Polygon → Option Polygon) :
    Polygon → List Polygon → Except Unit (Polygon × List Polygon)
  | cell, [] => Except.ok (cell, [])
  | cell, ob :: obs =>
    match (removeIntersection kInt kDiff cell ob).ret with
    | Except.error _ => Except.error ()
    | Except.ok none =>
      (minusFold kInt kDiff (removeIntersection kInt kDiff cell ob).p1 obs).map
        (fun r => (r.1, (removeIntersection kInt kDiff cell ob).p2 :: r.2))
    | Except.ok (some p) =>
      (minusFold kInt kDiff p obs).map
        (fun r => (r.1, (removeIntersection kInt kDiff cell ob).p2 :: r.2))

/-- Outer loop of the second stage of `applyConstraints`: process every
cell against the (threaded) obstacle list. -/
def minusStage (kInt kDiff : Polygon → Polygon → Option Polygon) :
    List Polygon → List Polygon → Except Unit (List Polygon × List Polygon)
  | [], inners => Except.ok ([], inners)
  | c :: cs, inners =>
    match minusFold kInt kDiff c inners with
    | Except.error _ => Except.error ()
    | Except.ok r =>
      (minusStage kInt kDiff cs r.2).map (fun rest => (r.1 :: rest.1, rest.2))

/-- `applyConstraints()` from src/main.ts (lines 178-195): clip every
cell to the outer constraint, subtract every inner obstacle, then drop
null/empty polygons (`polygon && polygon.length > 0`); a throw in
either loop aborts the whole pass. -/
def applyConstraints (kInt kDiff : Polygon → Polygon → Option Polygon)
    (cells : List Polygon) (outer : Polygon) (inners : List Polygon) :
    Except Unit (List Polygon) :=
  match interFold kInt cells outer with
  | Except.error _ => Except.error ()
  | Except.ok s1 =>
    match minusStage kInt kDiff s1.1 inners with
    | Except.error _ => Except.error ()
    | Except.ok s2 => Except.ok (s2.1.filter (fun p => decide (0 < p.length)))

/-- Outer-clip step of `applyConstraintsToVoronoi` (part_000 lines
272-282): replace the cell by `gutils.polygonIntersection(cell, outer)`
unless that result is null or has fewer than 3 points, in which case the
cell is kept.  `gInt` is the uninterpreted kernel of the missing
`geometry.ts`. -/
def clipCellOuter (gInt : Polygon → Polygon → Option Polygon)
    (outer c : Polygon) : Polygon :=
  match gInt c outer with
  | none => c
  | some p => if p.length < 3 then c else p

/-- Obstacle step of `applyConstraintsToVoronoi` (part_000 lines
285-290): sequentially replace the cell by `gutils.polygonMinus(cell,
obstacle)` whenever that result is truthy (any array, with no check on
its point count), keeping the cell when it is null. -/
def minusCell (gMinus : Polygon → Polygon → Option Polygon)
    (inners : List Polygon) (c : Polygon) : Polygon :=
  inners.foldl
    (fun acc ob => match gMinus acc ob with | none => acc | some p => p) c

/-- `applyConstraintsToVoronoi()` from part_000 (lines 270-291): the
outer-clip stage followed by the obstacle-subtraction stage.  The
`geometry.ts` kernels are uninterpreted parameters; per the spec's
clipping contract they do not mutate their inputs, so no state is
threaded. -/
def applyConstraintsToVoronoi (gInt gMinus : Polygon → Polygon → Option Polygon)
    (outer : Polygon) (inners : List Polygon) (cells : List Polygon) :
    List Polygon :=
  (cells.map (clipCellOuter gInt outer)).map (minusCell gMinus inners)

/-- `applyConstraintsToPoints()` from part_000 (lines 261-267): skip
entirely when the outer constraint is uninitialized (`length == 0`),
otherwise keep the stations inside the outer polygon and then, obstacle
by obstacle, drop the stations inside each inner polygon. -/
def applyConstraintsToPoints (outer : Polygon) (inners : List Polygon)
    (stations : List Station) : List Station :=
  if outer.length = 0 then stations
  else
    inners.foldl
      (fun acc ip => acc.filter (fun s => !pointInPolygon s.lat s.lng ip))
      (stations.filter (fun s => pointInPolygon s.lat s.lng outer))

/-- The recomputation core of `update()` from part_000 (lines 97-143) as
a transformer of the mutable globals `(stations, voronoiPolygons)`:
return unchanged when the station list is empty; in constrained mode
filter the stations in place, recompute the Voronoi cells (bounding the
diagram by the outer constraint) and clip them; otherwise recompute the
cells bounding by the stations themselves.  `vor` is the uninterpreted
`gutils.voronoi` kernel (`some outer` = bounds derived from the outer
constraint, `none` = bounds derived from the stations). -/
def updateModel (vor : List Station → Option Polygon → List Polygon)
    (gInt gMinus : Polygon → Polygon → Option Polygon) (boolC : Bool)
    (outer : Polygon) (inners : List Polygon)
    (st : List Station × List Polygon) : List Station × List Polygon :=
  if st.1.length = 0 then st
  else if boolC then
    (applyConstraintsToPoints outer inners st.1,
      applyConstraintsToVoronoi gInt gMinus outer inners
        (vor (applyConstraintsToPoints outer inners st.1) (some outer)))
  else (st.1, vor st.1 none)

/-- The `dragend` handler of src/main.ts `addMarker` (lines 128-132):
re-find the dragged station by exact coordinate match with the pre-drag
position and overwrite it with the new position.  When `findIndex`
returns -1, `stations[-1] = v` assigns a non-index property of the JS
array, leaving the station elements untouched, so the model returns the
list unchanged — nothing is reported. -/
def dragEndMain (stations : List (Q × Q)) (dragStart newPos : Q × Q) :
    List (Q × Q) :=
  match stations.findIdx? (fun p => mainDragMatch p dragStart) with
  | some i => stations.set i newPos
  | none => stations

/-- The station update performed by the `dragend` handler of part_000
`addMarker` (lines 227-233): new coordinates, and the icon turns orange
unless it was red. -/
def setStationPos (newLat newLng : Q) (s : Station) : Station :=
  ⟨s.name, if s.icon ≠ "red" then "orange" else "red", newLat, newLng⟩

/-- The `dragend` handler of part_000 `addMarker`: re-find the dragged
station with `gutils.pointsEqual` against the pre-drag position
(`findIndex` returns the first match even when several stations lie
within tolerance) and mutate that station in place.  When no station
matches, `stations[-1].lat = ...` throws an uncaught TypeError,
modelled as `Except.error ()`. -/
def dragEndP0 (stations : List Station) (dragStart newPos : Q × Q) :
    Except Unit (List Station) :=
  match stations.findIdx? (fun p => pointsEqual (p.lat, p.lng) dragStart) with
  | none => Except.error ()
  | some i =>
    match stations.get? i with
    | none => Except.error ()
    | some s => Except.ok (stations.set i (setStationPos newPos.1 newPos.2 s))

/-- Concrete closed clockwise square ring (0,0)-(0,4)-(4,4)-(4,0); the
closing point shares `pid` 0 with the first point, as after a
`polygon.push(polygon[0])`. -/
def sqS : Polygon :=
  [⟨0, 0, 0⟩, ⟨1, 0, 4⟩, ⟨2, 4, 4⟩, ⟨3, 4, 0⟩, ⟨0, 0, 0⟩]

/-- Concrete closed clockwise triangle ring (0,0)-(0,8)-(8,8). -/
def triT : Polygon :=
  [⟨10, 0, 0⟩, ⟨11, 0, 8⟩, ⟨12, 8, 8⟩, ⟨10, 0, 0⟩]

/-- Concrete open triangle (first and last points are distinct objects
and distinct values). -/
def triOpen : Polygon :=
  [⟨20, 0, 0⟩, ⟨21, 0, 4⟩, ⟨22, 4, 4⟩]

/-- A ring that is closed by value (first and last coordinates equal)
but whose first and last entries are distinct objects (`pid` 30 vs 33),
as when a closed ring is loaded from a dataset. -/
def ringValueClosed : Polygon :=
  [⟨30, 0, 0⟩, ⟨31, 4, 0⟩, ⟨32, 0, 4⟩, ⟨33, 0, 0⟩]

/-- A closed ring of exactly 3 entries and only 2 distinct points
((0,0)-(4,4)-(0,0), closing entry the same object as the first): the
degenerate-polygon shape that passes the entry-count guard of the
clipping wrappers. -/
def ring3Closed : Polygon :=
  [⟨50, 0, 0⟩, ⟨51, 4, 4⟩, ⟨50, 0, 0⟩]

/-- A single concrete vertex used to build degenerate clip results. -/
def pt40 : Point := ⟨40, 1, 1⟩

/-- A second concrete vertex used to build degenerate clip results. -/
def pt41 : Point := ⟨41, 2, 2⟩

/-- A concrete station lying inside `triT`. -/
def stInside : Station := ⟨"s0", "blue", 1, 2⟩

theorem Q.lt_iff_toRat (a b : Q) (ha : 0 < a.d) (hb : 0 < b.d) :
    Q.lt a b = true ↔ a.toRat < b.toRat := by
  have ha' : (0 : ℚ) < (a.d : ℚ) := by exact_mod_cast ha
  have hb' : (0 : ℚ) < (b.d : ℚ) := by exact_mod_cast hb
  simp only [Q.lt, Q.toRat, decide_eq_true_eq]
  rw [div_lt_div_iff₀ ha' hb']
  exact_mod_cast Iff.rfl

theorem Q.numEq_iff_toRat (a b : Q) (ha : 0 < a.d) (hb : 0 < b.d) :
    Q.numEq a b = true ↔ a.toRat = b.toRat := by
  have ha' : (a.d : ℚ) ≠ 0 := by exact_mod_cast ha.ne'
  have hb' : (b.d : ℚ) ≠ 0 := by exact_mod_cast hb.ne'
  simp only [Q.numEq, Q.toRat, decide_eq_true_eq]
  rw [div_eq_div_iff ha' hb']
  exact_mod_cast Iff.rfl

theorem Q.toRat_sub (a b : Q) (ha : 0 < a.d) (hb : 0 < b.d) :
    (a - b).toRat = a.toRat - b.toRat := by
  have ha' : (a.d : ℚ) ≠ 0 := by exact_mod_cast ha.ne'
  have hb' : (b.d : ℚ) ≠ 0 := by exact_mod_cast hb.ne'
  show (Q.sub a b).toRat = a.toRat - b.toRat
  simp only [Q.sub, Q.toRat]
  rw [div_sub_div _ _ ha' hb']
  push_cast
  ring_nf

theorem Q.sub_d (a b : Q) : (a - b).d = a.d * b.d := rfl

theorem Q.abs_d (a : Q) : a.abs.d = a.d := rfl

theorem Q.toRat_abs (a : Q) (ha : 0 < a.d) : a.abs.toRat = |a.toRat| := by
  have ha' : (0 : ℚ) < (a.d : ℚ) := by exact_mod_cast ha
  simp only [Q.abs, Q.toRat]
  rw [abs_div, abs_of_pos ha']
  congr 1
  rw [Int.cast_natAbs]
  exact_mod_cast rfl

theorem closePolygon_idem (P : Polygon) :
    closePolygon (closePolygon P) = closePolygon P := by
  cases P with
  | nil => rfl
  | cons h t =>
    by_cases hp : h.pid = ((h :: t).getLastD h).pid
    · simp [closePolygon, hp]
    · rw [closePolygon, if_neg hp]
      have hcons : (h :: t) ++ [h] = h :: (t ++ [h]) := rfl
      rw [hcons, closePolygon, if_pos]
      rw [← hcons, List.getLastD_concat]

theorem filterInners_eq (inners : List Polygon) (l : List Station) :
    inners.foldl
        (fun acc ip => acc.filter (fun s => !pointInPolygon s.lat s.lng ip)) l
      = l.filter (fun s => inners.all (fun ip => !pointInPolygon s.lat s.lng ip)) := by
  induction inners generalizing l with
  | nil => simp
  | cons ip rest ih =>
    rw [List.foldl_cons, ih, List.filter_filter]
    simp only [List.all_cons]
    refine List.filter_congr ?_
    intro s _
    exact Bool.and_comm _ _

theorem acp_eq_filter (outer : Polygon) (inners : List Polygon)
    (l : List Station) (h : outer ≠ []) :
    applyConstraintsToPoints outer inners l
      = l.filter (fun s => pointInPolygon s.lat s.lng outer
          && inners.all (fun ip => !pointInPolygon s.lat s.lng ip)) := by
  rw [applyConstraintsToPoints, if_neg (by simpa using h), filterInners_eq,
    List.filter_filter]
  refine List.filter_congr ?_
  intro s _
  exact Bool.and_comm _ _

theorem acp_idem (outer : Polygon) (inners : List Polygon) (l : List Station) :
    applyConstraintsToPoints outer inners (applyConstraintsToPoints outer inners l)
      = applyConstraintsToPoints outer inners l := by
  by_cases h : outer = []
  · subst h
    simp [applyConstraintsToPoints]
  · rw [acp_eq_filter _ _ _ h, acp_eq_filter _ _ _ h, List.filter_filter]
    simp [Bool.and_self]

/-- C1, counterexample.  The obstacle-difference stage of
`applyConstraintsToVoronoi` (part_000) installs a degenerate one-point
clip result instead of keeping the original cell: with a difference
kernel returning the single-point ring `[pt40]` (fewer than 3 points,
the sliver case the spec itself documents as occurring), the pipeline
replaces the square cell by that degenerate ring, so the claim that a
degenerate clip always leaves the pre-clip cell unchanged is false. -/
theorem c1_claim_cex :
    ([pt40] : Polygon).length < 3
    ∧ applyConstraintsToVoronoi (fun c _ => some c) (fun _ _ => some [pt40])
        triT [triT] [sqS] = [[pt40]]
    ∧ ([[pt40]] : List Polygon) ≠ [sqS] := by
  decide

/-- C1, amended: only the outer-intersection stage of part_000
(`clipCellOuter`) guards degenerate clips — when
`gutils.polygonIntersection` returns a result with fewer than 3 points
(or null), the cell is kept unchanged; the obstacle-difference stage of
both variants and the main.ts intersection stage install any non-null
result regardless of its point count. -/
theorem c1_amended_thm (gInt : Polygon → Polygon → Option Polygon)
    (outer c : Polygon) :
    (∀ p, gInt c outer = some p → p.length < 3 → clipCellOuter gInt outer c = c)
    ∧ (gInt c outer = none → clipCellOuter gInt outer c = c) := by
  constructor
  · intro p hp hlen
    simp [clipCellOuter, hp, hlen]
  · intro hp
    simp [clipCellOuter, hp]

/-- C1, witness: a concrete degenerate (2-point) outer clip of the
square cell is rejected and the cell kept. -/
theorem c1_witness :
    clipCellOuter (fun _ _ => some [pt40, pt41]) triT sqS = sqS :=
  (c1_amended_thm (fun _ _ => some [pt40, pt41]) triT sqS).1 [pt40, pt41]
    rfl (by decide)

/-- C2: when polygon B fully covers polygon A, `removeIntersection`
faults instead of returning an empty result.  At the concrete closed
clockwise square `sqS` clipped against itself, `turf.intersect` returns
the square itself (the kernels below are instantiated with exactly the
values the turf library documents for this input: the intersection of a
ring with itself is that ring, and `turf.difference` returns null when
the difference is empty), and the source dereferences
`turf.difference(...).geometry` on that null, throwing a TypeError. -/
theorem c2_full_cover_fault :
    (removeIntersection (fun _ _ => some sqS) (fun _ _ => none) sqS sqS).ret
      = Except.error () := rfl

/-- C3, counterexample.  The clipping wrappers mutate their operands:
`removeIntersection` closes the open triangle operand in place
(`closePolygons` pushes the first point), so after the call the first
operand array no longer holds the point sequence that was supplied. -/
theorem c3_mutation_cex :
    (removeIntersection (fun _ _ => none) (fun _ _ => none) triOpen sqS).p1
      ≠ triOpen := by
  decide

/-- C3, amended: the wrappers return a new ring or an explicit
empty/absent value, but they mutate their operands in place (closing,
winding reversal); only when both operands are already closed and
already clockwise are the operand arrays left exactly as supplied. -/
theorem c3_amended_thm (kInt kDiff : Polygon → Polygon → Option Polygon)
    (A B : Polygon) (hA : closePolygon A = A) (hB : closePolygon B = B)
    (hcA : booleanClockwise A = true) (hcB : booleanClockwise B = true) :
    (removeIntersection kInt kDiff A B).p1 = A
    ∧ (removeIntersection kInt kDiff A B).p2 = B
    ∧ (polygonIntersection kInt A B).p1 = A
    ∧ (polygonIntersection kInt A B).p2 = B := by
  rw [removeIntersection, polygonIntersection, hA, hB]
  simp only [clockwiseRing, hcA, hcB, if_true]
  refine ⟨?_, ?_, ?_, ?_⟩ <;>
    · split
      · rfl
      · split
        · rfl
        · cases kInt A B with
          | none => rfl
          | some I =>
            dsimp only
            all_goals cases kDiff A I <;> rfl

/-- C3, witness: on already-closed clockwise rings the operands are
preserved. -/
theorem c3_witness :
    (removeIntersection (fun _ _ => none) (fun _ _ => none) sqS triT).p1 = sqS
    ∧ (removeIntersection (fun _ _ => none) (fun _ _ => none) sqS triT).p2 = triT
    ∧ (polygonIntersection (fun _ _ => none) sqS triT).p1 = sqS
    ∧ (polygonIntersection (fun _ _ => none) sqS triT).p2 = triT :=
  c3_amended_thm (fun _ _ => none) (fun _ _ => none) sqS triT
    (by decide) (by decide) (by decide) (by decide)

/-- C4, counterexample.  `ringValueClosed` is already closed by value —
its first and last points are tolerance-equal (equal coordinates) — yet
`closePolygon` appends another closing point, because the source
compares the first and last entries with `!==` (object identity), not
with tolerance equality. -/
theorem c4_tolerance_cex :
    pointsEqual ((ringValueClosed.headD pt40).lat, (ringValueClosed.headD pt40).lng)
        ((ringValueClosed.getLastD pt40).lat, (ringValueClosed.getLastD pt40).lng)
      = true
    ∧ closePolygon ringValueClosed ≠ ringValueClosed := by
  decide

/-- C4, amended: `closePolygon` appends the first point exactly when the
last entry is not the same object as the first (reference inequality on
the `pid`), which can append even when the ring is already closed by
value; closing is idempotent: `close(close(P)) = close(P)`. -/
theorem c4_amended_thm :
    (∀ P : Polygon, closePolygon (closePolygon P) = closePolygon P)
    ∧ (∀ (h : Point) (t : Polygon), ((h :: t).getLastD h).pid ≠ h.pid →
        closePolygon (h :: t) = (h :: t) ++ [h])
    ∧ (∀ (h : Point) (t : Polygon), ((h :: t).getLastD h).pid = h.pid →
        closePolygon (h :: t) = h :: t) := by
  refine ⟨closePolygon_idem, ?_, ?_⟩
  · intro h t hne
    rw [closePolygon, if_neg (fun hx => hne hx.symm)]
  · intro h t he
    rw [closePolygon, if_pos he.symm]

/-- C4, witness: an open two-point ring gets its closing point appended,
and closing the result again is a no-op. -/
theorem c4_witness :
    closePolygon [pt40, pt41] = [pt40, pt41, pt40]
    ∧ closePolygon (closePolygon [pt40, pt41]) = closePolygon [pt40, pt41] :=
  ⟨c4_amended_thm.2.1 pt40 [pt41] (by decide), c4_amended_thm.1 [pt40, pt41]⟩

/-- C5: `applyConstraintsToPoints` is skipped entirely when the outer
polygon is empty (uninitialized); otherwise a station survives exactly
when it lies inside the outer polygon and inside no inner polygon, so
every point outside the outer polygon and every point inside any inner
polygon is removed (and nothing else is). -/
theorem c5_filter_points_thm (outer : Polygon) (inners : List Polygon)
    (l : List Station) :
    (outer = [] → applyConstraintsToPoints outer inners l = l)
    ∧ (outer ≠ [] → ∀ s : Station,
        s ∈ applyConstraintsToPoints outer inners l
          ↔ s ∈ l ∧ pointInPolygon s.lat s.lng outer = true
              ∧ ∀ ip ∈ inners, pointInPolygon s.lat s.lng ip = false) := by
  constructor
  · intro h
    subst h
    simp [applyConstraintsToPoints]
  · intro h s
    rw [acp_eq_filter _ _ _ h]
    simp only [List.mem_filter, Bool.and_eq_true, List.all_eq_true,
      Bool.not_eq_true', and_assoc]

/-- C5, witness: a station inside the triangular outer constraint
survives the filtering step. -/
theorem c5_witness :
    stInside ∈ applyConstraintsToPoints triT [] [stInside] :=
  ((c5_filter_points_thm triT [] [stInside]).2 (by decide) stInside).mpr
    ⟨List.mem_singleton.mpr rfl, by decide, by simp⟩

/-- C6: `polygonIntersection` does not return an empty or absent result
on every degenerate input.  `ring3Closed` is a closed ring of 3 entries
with only 2 distinct points — a degenerate polygon in the sense of the
spec — but the guard counts entries, so it passes the `< 3` check
unchanged by closing and reaches `turf.polygon`, whose documented ring
validation (a linear ring needs at least 4 positions) throws; the
wrapper faults instead of returning the promised empty/absent value.
The kernel is irrelevant (never reached). -/
theorem c6_degenerate_ring_fault :
    (closePolygon ring3Closed).length = 3
    ∧ (polygonIntersection (fun _ _ => none) ring3Closed sqS).ret
        = Except.error () := by
  exact ⟨rfl, rfl⟩

/-- C7: the recomputation pipeline of `update()` is idempotent on the
mutable globals: running it a second time with the same constraint set,
mode flag and kernels reproduces exactly the same station list and the
same cell polygons in the same order, even though the first run mutated
the global station list in place.  Determinism itself holds because the
model is a pure function of its state (the voronoi and clipping kernels
are deterministic functions). -/
theorem c7_idempotent_thm (vor : List Station → Option Polygon → List Polygon)
    (gInt gMinus : Polygon → Polygon → Option Polygon) (boolC : Bool)
    (outer : Polygon) (inners : List Polygon)
    (st : List Station × List Polygon) :
    updateModel vor gInt gMinus boolC outer inners
        (updateModel vor gInt gMinus boolC outer inners st)
      = updateModel vor gInt gMinus boolC outer inners st := by
  by_cases h1 : st.1.length = 0
  · simp [updateModel, h1]
  · cases boolC with
    | false => simp [updateModel, h1]
    | true =>
      by_cases h2 : (applyConstraintsToPoints outer inners st.1).length = 0
      · simp [updateModel, h1, h2]
      · simp [updateModel, h1, h2, acp_idem]

/-- C8, counterexample.  The pre-drag lookup comparison of src/main.ts
is bit-exact: two positions whose coordinate difference is well below
the tolerance (half of epsilon) are equal under `pointsEqual` but not
under the main.ts comparison, so the equality used to re-identify a
dragged facility is not tolerance-based in that variant. -/
theorem c8_bitexact_cex :
    pointsEqual ((0 : Q), 0) ((⟨1, 2000000000⟩ : Q), 0) = true
    ∧ mainDragMatch ((0 : Q), 0) ((⟨1, 2000000000⟩ : Q), 0) = false := by
  decide

/-- C8, amended: the part_000 variant re-identifies a dragged facility
with `pointsEqual`, which holds exactly when both coordinate deltas are
below epsilon (tolerance-based); the main.ts variant instead compares
with `==`, which holds exactly when the coordinates are numerically
equal (bit-exact). -/
theorem c8_amended_thm (a b : Q × Q)
    (h1 : 0 < a.1.d) (h2 : 0 < a.2.d) (h3 : 0 < b.1.d) (h4 : 0 < b.2.d) :
    (pointsEqual a b = true
      ↔ |a.1.toRat - b.1.toRat| < EPSILON.toRat
          ∧ |a.2.toRat - b.2.toRat| < EPSILON.toRat)
    ∧ (mainDragMatch a b = true
      ↔ a.1.toRat = b.1.toRat ∧ a.2.toRat = b.2.toRat) := by
  have e1 : 0 < (a.1 - b.1).abs.d := by
    rw [Q.abs_d, Q.sub_d]
    exact mul_pos h1 h3
  have e2 : 0 < (a.2 - b.2).abs.d := by
    rw [Q.abs_d, Q.sub_d]
    exact mul_pos h2 h4
  have heps : (0 : Int) < EPSILON.d := by decide
  constructor
  · rw [pointsEqual, Bool.and_eq_true,
      Q.lt_iff_toRat _ _ e1 heps, Q.lt_iff_toRat _ _ e2 heps,
      Q.toRat_abs _ (by rw [Q.sub_d]; exact mul_pos h1 h3),
      Q.toRat_abs _ (by rw [Q.sub_d]; exact mul_pos h2 h4),
      Q.toRat_sub _ _ h1 h3, Q.toRat_sub _ _ h2 h4]
  · rw [mainDragMatch, Bool.and_eq_true,
      Q.numEq_iff_toRat _ _ h1 h3, Q.numEq_iff_toRat _ _ h2 h4]

/-- C8, witness: evaluating the tolerance characterization at a
concrete pair of coincident positions. -/
theorem c8_witness :
    |(0 : Q).toRat - (0 : Q).toRat| < EPSILON.toRat
    ∧ |(0 : Q).toRat - (0 : Q).toRat| < EPSILON.toRat :=
  (c8_amended_thm ((0 : Q), 0) ((0 : Q), 0)
    (by decide) (by decide) (by decide) (by decide)).1.mp (by decide)

/-- C9: a failed or ambiguous pre-drag lookup is not surfaced.  In
src/main.ts a drag whose start position matches no station leaves the
station list unchanged and reports nothing (a silent no-op, because
`stations[-1] = v` does not touch the array elements); in part_000 two
stations within epsilon of the drag start are both matches, and the
handler silently mutates the first one without reporting the
ambiguity. -/
theorem c9_silent_lookup_thm :
    dragEndMain [((0 : Q), 0)] ((1 : Q), 1) ((5 : Q), 5) = [((0 : Q), 0)]
    ∧ dragEndP0 [⟨"a", "blue", 0, 0⟩, ⟨"b", "blue", ⟨1, 2000000000⟩, 0⟩]
        ((0 : Q), 0) ((5 : Q), 5)
      = Except.ok [⟨"a", "orange", 5, 5⟩, ⟨"b", "blue", ⟨1, 2000000000⟩, 0⟩]
    ∧ pointsEqual ((⟨1, 2000000000⟩ : Q), 0) ((0 : Q), 0) = true :=
  ⟨rfl, rfl, by decide⟩

/-- C10: whenever `applyConstraints` returns normally, every polygon in
the returned cell list has at least one point — the final filter
(`polygon && polygon.length > 0`) removes empty and null cells before
the list reaches the consumer. -/
theorem c10_nonempty_thm (kInt kDiff : Polygon → Polygon → Option Polygon)
    (cells : List Polygon) (outer : Polygon) (inners : List Polygon)
    (res : List Polygon)
    (h : applyConstraints kInt kDiff cells outer inners = Except.ok res) :
    ∀ p ∈ res, 0 < p.length := by
  rw [applyConstraints] at h
  cases hif : interFold kInt cells outer with
  | error e =>
    rw [hif] at h
    exact absurd h (by simp)
  | ok s1 =>
    rw [hif] at h
    dsimp only at h
    cases hms : minusStage kInt kDiff s1.1 inners with
    | error e =>
      rw [hms] at h
      exact absurd h (by simp)
    | ok s2 =>
      rw [hms] at h
      simp only [Except.ok.injEq] at h
      subst h
      intro p hp
      exact of_decide_eq_true (List.mem_filter.mp hp).2

/-- C10, witness: a concrete run whose surviving cell is the square
ring, which indeed has points. -/
theorem c10_witness : 0 < (sqS : Polygon).length :=
  c10_nonempty_thm (fun _ _ => some sqS) (fun _ _ => none) [sqS] triT [] [sqS]
    rfl sqS (List.mem_singleton.mpr rfl)

end BikeVoronoi
